import Mathlib

/-!
Verification development for the Raw-Alchemy repository.

The repository converts decoded linear-light camera images into graded,
log-encoded rasters: exposure metering, lens correction, a saturation and
contrast boost, a gamut and curve colour transform, LUT application, and a
batch orchestrator.  The Python sources are shallowly embedded here:

* images are dense rasters of real-valued RGB triples, modelled as lists of
  rows of pixels (`Image`);
* numpy reductions (`mean`, `percentile`, `clip`) are modelled over `ℝ`
  following numpy's documented semantics;
* the external collaborators (rawpy decoder, colour-science matrices and
  transfer functions, lensfun, the LUT reader and the TIFF writer) are
  parameters of the embedding, exactly as the specification treats them
  (interfaces only);
* Python exceptions are modelled with `Except`.

Sources embedded: `src/raw_alchemy/utils.py`, `src/raw_alchemy/core.py`,
`src/raw_alchemy/orchestrator.py`, `src/raw_alchemy/cli.py`.
-/

/-- One RGB sample: channel order R, G, B, as in the numpy arrays of shape
(h, w, 3). -/
abbrev Pixel : Type := ℝ × ℝ × ℝ

/-- A dense raster: a list of rows, each row a list of RGB pixels.  This
models a numpy array of shape (h, w, 3) of floating point samples. -/
abbrev Image : Type := List (List Pixel)

/-- All samples of the raster, row-major — the flat pixel collection over
which numpy reductions (`np.mean`, `np.percentile`) operate. -/
def pixels (img : Image) : List Pixel := img.flatten

/-- Element-wise pixel transform, the shape of every vectorised numpy
operation appearing in the pipeline. -/
def mapPx (f : Pixel → Pixel) (img : Image) : Image :=
  img.map (fun row => row.map f)

/-- Multiplication of a whole raster by one scalar, `img * gain` in numpy. -/
def mulImage (img : Image) (gain : ℝ) : Image :=
  mapPx (fun p => (p.1 * gain, p.2.1 * gain, p.2.2 * gain)) img

/-- Numpy `np.clip(x, lo, hi)`, which is `min(max(x, lo), hi)`. -/
noncomputable def npClip (x lo hi : ℝ) : ℝ := min (max x lo) hi

/-- Numpy `np.mean` over a flat list: sum divided by length. -/
noncomputable def npMean (xs : List ℝ) : ℝ := xs.sum / (xs.length : ℝ)

/-- Per-pixel `np.max(img, axis=2)`: the channel-wise maximum of one pixel. -/
noncomputable def maxRGB (p : Pixel) : ℝ := max p.1 (max p.2.1 p.2.2)

/-- The slice of a `colour.RGB_Colourspace` that the metering code uses: the
Y row of the colourspace's RGB-to-XYZ matrix.  `colour.RGB_to_XYZ` followed
by taking channel 1 (the Y channel) is exactly a dot product with this row.
The colour-science library itself is an external collaborator. -/
structure RGB_Colourspace where
  yWeights : Pixel

/-- Luminance of one pixel: `colour.RGB_to_XYZ(img, cs)[:, :, 1]`, i.e. the
Y row of the colourspace matrix applied to the RGB triple. -/
noncomputable def luminanceY (cs : RGB_Colourspace) (p : Pixel) : ℝ :=
  cs.yWeights.1 * p.1 + cs.yWeights.2.1 * p.2.1 + cs.yWeights.2.2 * p.2.2

/-- Numpy `np.percentile(xs, q)` with the default linear interpolation:
sort, locate the virtual index `q / 100 * (n - 1)`, and interpolate between
the two surrounding order statistics. -/
noncomputable def npPercentile (q : ℝ) (xs : List ℝ) : ℝ :=
  let s := List.insertionSort (· ≤ ·) xs
  let pos : ℝ := q / 100 * ((xs.length : ℝ) - 1)
  let lo := s.getD (⌊pos⌋.toNat) 0
  let hi := s.getD (⌈pos⌉.toNat) 0
  lo + (pos - (⌊pos⌋ : ℝ)) * (hi - lo)

/-- Gain of `utils.auto_expose_linear` (metering mode "average"): geometric
mean of luminance via mean-of-logs with a 1e-6 floor, target-gray gain with
a guard for nearly black frames (`avg_lum < 0.0001`), clipped to
[1.0, 50.0]. -/
noncomputable def auto_expose_linear_gain (img : Image) (cs : RGB_Colourspace)
    (target_gray : ℝ) : ℝ :=
  let luminance := (pixels img).map (luminanceY cs)
  let avg_log_lum := npMean (luminance.map (fun l => Real.log (l + 1e-6)))
  let avg_lum := Real.exp avg_log_lum
  let gain := if avg_lum < 0.0001 then 1 else target_gray / avg_lum
  npClip gain 1 50

/-- Image returned by `utils.auto_expose_linear`: `img_linear * gain`. -/
noncomputable def auto_expose_linear (img : Image) (cs : RGB_Colourspace)
    (target_gray : ℝ) : Image :=
  mulImage img (auto_expose_linear_gain img cs target_gray)

/-- Gain of `utils.auto_expose_hybrid` (metering mode "hybrid"): the same
mean-of-logs geometric mean as "average", but base gain
`target_gray / (avg_lum + 1e-6)` with no near-black guard, a highlight
check on the 99th percentile of max(R,G,B) with override `6.0 / p99` when
the predicted peak exceeds 6.0, and a final clip to [0.1, 100.0]. -/
noncomputable def auto_expose_hybrid_gain (img : Image) (cs : RGB_Colourspace)
    (target_gray : ℝ) : ℝ :=
  let luminance := (pixels img).map (luminanceY cs)
  let avg_log_lum := npMean (luminance.map (fun l => Real.log (l + 1e-6)))
  let avg_lum := Real.exp avg_log_lum
  let base_gain := target_gray / (avg_lum + 1e-6)
  let max_vals := (pixels img).map maxRGB
  let p99 := npPercentile 99 max_vals
  let potential_peak := p99 * base_gain
  let gain := if potential_peak > 6 then 6 / p99 else base_gain
  npClip gain 0.1 100

/-- Image returned by `utils.auto_expose_hybrid`: `img_linear * gain`. -/
noncomputable def auto_expose_hybrid (img : Image) (cs : RGB_Colourspace)
    (target_gray : ℝ) : Image :=
  mulImage img (auto_expose_hybrid_gain img cs target_gray)

/-- Gain of `utils.auto_expose_highlight_safe` (metering mode
"highlight-safe"): 99.5th percentile of max(R,G,B), gain
`0.9 / percentile` with a 1e-6 floor guard giving gain 1.0.  The
`clip_threshold` parameter exists in the Python signature but is unused by
the body. -/
noncomputable def auto_expose_highlight_safe_gain (img : Image) : ℝ :=
  let max_vals := (pixels img).map maxRGB
  let high_percentile := npPercentile 99.5 max_vals
  if high_percentile < 1e-6 then 1 else 0.9 / high_percentile

/-- Image returned by `utils.auto_expose_highlight_safe`. -/
noncomputable def auto_expose_highlight_safe (img : Image) : Image :=
  mulImage img (auto_expose_highlight_safe_gain img)

/-- Gain of `utils.auto_expose_center_weighted` (metering mode
"center-weighted"): Gaussian weights centred on the image centre with
sigma `min(h, w) / 2`, weighted arithmetic mean of luminance, target-gray
gain with a 1e-6 guard, clipped to [0.1, 100.0]. -/
noncomputable def auto_expose_center_weighted_gain (img : Image)
    (cs : RGB_Colourspace) (target_gray : ℝ) : ℝ :=
  let h := img.length
  let w := (img.headD []).length
  let sigma : ℝ := (min h w : ℕ) / 2
  let pairs : List (ℝ × ℝ) :=
    (List.range h).flatMap (fun (y : ℕ) =>
      (List.range w).map (fun (x : ℕ) =>
        (Real.exp (-(((x : ℝ) - (w : ℝ) / 2) ^ 2 + ((y : ℝ) - (h : ℝ) / 2) ^ 2)
            / (2 * sigma ^ 2)),
         luminanceY cs ((img.getD y []).getD x (0, 0, 0)))))
  let weighted_avg_lum :=
    (pairs.map (fun pr => pr.1 * pr.2)).sum / (pairs.map Prod.fst).sum
  let gain := if weighted_avg_lum < 1e-6 then 1 else target_gray / weighted_avg_lum
  npClip gain 0.1 100

/-- Image returned by `utils.auto_expose_center_weighted`. -/
noncomputable def auto_expose_center_weighted (img : Image)
    (cs : RGB_Colourspace) (target_gray : ℝ) : Image :=
  mulImage img (auto_expose_center_weighted_gain img cs target_gray)

/-- The boost stage `utils.apply_saturation_and_contrast`: per pixel, mix
each channel away from the Rec.709 luminance by the saturation factor,
stretch around the 0.18 pivot by the contrast factor, then floor at 0. -/
noncomputable def apply_saturation_and_contrast (img : Image)
    (saturation contrast : ℝ) : Image :=
  mapPx (fun p =>
    let lum := 0.2126 * p.1 + 0.7152 * p.2.1 + 0.0722 * p.2.2
    let satC := fun c : ℝ => lum + (c - lum) * saturation
    let boostC := fun c : ℝ => (satC c - 0.18) * contrast + 0.18
    (max (boostC p.1) 0, max (boostC p.2.1) 0, max (boostC p.2.2) 0)) img

/-- Metadata dictionary produced by `utils.extract_lens_exif` (the exifread
collaborator is external; reading a file may populate any subset of these
keys). -/
structure ExifData where
  camera_maker : Option String := none
  camera_model : Option String := none
  lens_maker : Option String := none
  lens_model : Option String := none
  focal_length : Option ℝ := none
  aperture : Option ℝ := none

/-- Python `a or b` on an optional string: `a` unless it is falsy (absent
or empty), else `b`. -/
def pyOrStr (a b : Option String) : Option String :=
  match a with
  | some s => if s = "" then b else some s
  | none => b

/-- Python `a or b` on an optional float: `a` unless it is falsy (absent or
`0.0`), else `b`. -/
noncomputable def pyOrFloat (a b : Option ℝ) : Option ℝ :=
  match a with
  | some x => if x = 0 then b else some x
  | none => b

/-- Python truthiness of an optional string (`not camera_model` is true for
`None` and for the empty string). -/
def pyTruthyStr : Option String → Bool
  | none => false
  | some s => !(s = "")

/-- Body of `utils.apply_lens_correction`, given the EXIF dictionary already
extracted and the outcome `lf_result` of the external lensfun engine: merge
explicit arguments with EXIF values Python-`or`-style, warn and return the
image unchanged when camera model, lens model, focal length or aperture is
missing, and also return the image unchanged when the engine itself fails.
The returned list holds the logged messages. -/
noncomputable def apply_lens_correction (image : Image) (exif : ExifData)
    (camera_maker camera_model lens_maker lens_model : Option String)
    (focal_length aperture : Option ℝ)
    (lf_result : Except String Image) : Image × List String :=
  let _cameraMaker := pyOrStr camera_maker exif.camera_maker
  let cameraModel := pyOrStr camera_model exif.camera_model
  let _lensMaker := pyOrStr lens_maker exif.lens_maker
  let lensModel := pyOrStr lens_model exif.lens_model
  let focal := pyOrFloat focal_length exif.focal_length
  let apertureV := pyOrFloat aperture exif.aperture
  if !(pyTruthyStr cameraModel) || !(pyTruthyStr lensModel) then
    (image, ["[Warning] Missing camera or lens info. Skipping lens correction."])
  else if focal = none ∨ apertureV = none then
    (image, ["[Warning] Missing focal length or aperture info. Skipping lens correction."])
  else
    match lf_result with
    | Except.ok corrected => (corrected, ["[Lens Correction] applied"])
    | Except.error e => (image, ["[Error] Lens correction failed: " ++ e])

/-- Positional-then-keyword binding check for a Python call: every keyword
must name a parameter, and every parameter without a default must be bound
either by one of the `npos` positional arguments (which fill the parameter
list front to back) or by a keyword.  A call violating this raises
`TypeError` before the callee body runs. -/
def pythonCallBinds (params requiredParams : List String) (npos : ℕ)
    (kwargs : List String) : Bool :=
  kwargs.all (fun k => params.contains k) &&
    requiredParams.all (fun p => (params.take npos).contains p || kwargs.contains p)

/-- Parameter list of `utils.apply_lens_correction` as defined in
`utils.py` (line 7). -/
def apply_lens_correction_params : List String :=
  ["image", "raw_path", "camera_maker", "camera_model", "lens_maker",
   "lens_model", "focal_length", "aperture", "crop_factor",
   "correct_distortion", "correct_tca", "correct_vignetting",
   "custom_db_path", "logger"]

/-- Parameters of `utils.apply_lens_correction` that have no default value. -/
def apply_lens_correction_required : List String := ["image", "raw_path"]

/-- Keywords of the call `utils.apply_lens_correction(img, exif_data=...,
custom_db_path=..., logger=...)` in `core.process_image` (line 126); the
call passes one positional argument. -/
def process_image_lens_call_kwargs : List String :=
  ["exif_data", "custom_db_path", "logger"]

/-- Message of the `TypeError` produced by that call: `exif_data` is not a
parameter of `utils.apply_lens_correction` (and `raw_path` is left
unbound), so Python raises before any lens-correction logic runs. -/
def lensCallTypeError : String :=
  "TypeError: apply_lens_correction() got an unexpected keyword argument: exif_data"

/-- Mapping from log-space name to its linear working gamut
(`core.LOG_TO_WORKING_SPACE`). -/
def LOG_TO_WORKING_SPACE : List (String × String) :=
  [("F-Log", "F-Gamut"),
   ("F-Log2", "F-Gamut"),
   ("F-Log2C", "F-Gamut C"),
   ("V-Log", "V-Gamut"),
   ("N-Log", "N-Gamut"),
   ("Canon Log 2", "Cinema Gamut"),
   ("Canon Log 3", "Cinema Gamut"),
   ("S-Log3", "S-Gamut3"),
   ("S-Log3.Cine", "S-Gamut3.Cine"),
   ("Arri LogC3", "ARRI Wide Gamut 3"),
   ("Arri LogC4", "ARRI Wide Gamut 4"),
   ("Log3G10", "REDWideGamutRGB")]

/-- Mapping from composite log-space name to the curve-function name used
for encoding (`core.LOG_ENCODING_MAP`); other names fall back to
themselves. -/
def LOG_ENCODING_MAP : List (String × String) :=
  [("S-Log3.Cine", "S-Log3"), ("F-Log2C", "F-Log2")]

/-- Configuration surface of `core.process_image` that the embedding needs:
target log space, optional LUT path, optional manual exposure in stops,
lens-correction toggle and metering mode. -/
structure Config where
  log_space : String
  lut_path : Option String
  exposure : Option ℝ
  lens_correct : Bool
  metering_mode : String

/-- Stages of the per-image pipeline, in the order `core.process_image` runs
them; the trace of executed stages is observable through the log calls. -/
inductive Stage where
  | decode
  | exposure
  | lensCorrection
  | boost
  | gamutTransform
  | curveEncode
  | lut
  | encode
deriving DecidableEq

/-- A 3x3 matrix as three rows, the output of `colour.matrix_RGB_to_RGB`
(the colourimetric computation itself is the external colour library). -/
abbrev Mat3 : Type := Pixel × Pixel × Pixel

/-- Modelled from the spec: `utils.apply_matrix_inplace` is not in `src/`;
the specification describes it as a matrix-vector product per pixel,
performed as one vectorised linear-algebra operation.  Row-times-pixel dot
product. -/
noncomputable def dotRow (row : Pixel) (p : Pixel) : ℝ :=
  row.1 * p.1 + row.2.1 * p.2.1 + row.2.2 * p.2.2

/-- Modelled from the spec: `utils.apply_matrix_inplace` is not in `src/`;
it applies the 3x3 gamut matrix to every pixel in place. -/
noncomputable def apply_matrix_inplace (M : Mat3) (img : Image) : Image :=
  mapPx (fun p => (dotRow M.1 p, dotRow M.2.1 p, dotRow M.2.2 p)) img

/-- Modelled from the spec: `utils.apply_gain_inplace` is not in `src/`;
the specification says gain application is an element-wise multiply
performed in place.  In the pure model it is the scalar image multiply. -/
noncomputable def apply_gain_inplace (img : Image) (gain : ℝ) : Image :=
  mapPx (fun p => (p.1 * gain, p.2.1 * gain, p.2.2 * gain)) img

/-- Floor applied after the gamut matrix: `np.maximum(img, 1e-6, out=img)`
in `core.process_image`. -/
noncomputable def floorStage (img : Image) : Image :=
  mapPx (fun p => (max p.1 1e-6, max p.2.1 1e-6, max p.2.2 1e-6)) img

/-- Curve encoding `colour.cctf_encoding(img, function=name)`: the named
transfer function applied element-wise; the function itself is the external
colour library. -/
noncomputable def curveStage (f : ℝ → ℝ) (img : Image) : Image :=
  mapPx (fun p => (f p.1, f p.2.1, f p.2.2)) img

/-- Post-LUT clamp `np.clip(img, 0.0, 1.0, out=img)`. -/
noncomputable def clip01 (img : Image) : Image :=
  mapPx (fun p => (npClip p.1 0 1, npClip p.2.1 0 1, npClip p.2.2 0 1)) img

/-- Truncation toward zero, the float-to-integer conversion of a C cast. -/
noncomputable def truncTowardZero (x : ℝ) : ℤ :=
  if 0 ≤ x then ⌊x⌋ else ⌈x⌉

/-- Numpy `.astype(np.uint16)` on a float sample: truncate toward zero and
wrap modulo 2^16.  There is no saturation. -/
noncomputable def castToUInt16 (x : ℝ) : ℤ :=
  truncTowardZero x % 65536

/-- The save step `(img * 65535).astype(np.uint16)` of `core.process_image`:
every sample is scaled by 65535 and cast, with no clamping. -/
noncomputable def encodeImage (img : Image) : List (List (ℤ × ℤ × ℤ)) :=
  img.map (fun row => row.map (fun p =>
    (castToUInt16 (p.1 * 65535), castToUInt16 (p.2.1 * 65535),
     castToUInt16 (p.2.2 * 65535))))

/-- Step 2 of `core.process_image`: manual exposure (`gain = 2.0 **
exposure`, applied by `utils.apply_gain_inplace`) when `exposure` is
supplied, otherwise dispatch on the metering mode, with "hybrid" as the
fallback.  `target_gray=0.18` and `clip_threshold=1.0` are the literal
arguments of the calls. -/
noncomputable def exposeStage (cs : RGB_Colourspace) (cfg : Config)
    (img : Image) : Image :=
  match cfg.exposure with
  | some e => apply_gain_inplace img ((2 : ℝ) ^ e)
  | none =>
    if cfg.metering_mode = "center-weighted" then
      auto_expose_center_weighted img cs 0.18
    else if cfg.metering_mode = "highlight-safe" then
      auto_expose_highlight_safe img
    else if cfg.metering_mode = "average" then
      auto_expose_linear img cs 0.18
    else
      auto_expose_hybrid img cs 0.18

/-- Curve-function name chosen in step 4: `LOG_ENCODING_MAP.get(log_space,
log_space)`. -/
def curveNameOf (log_space : String) : String :=
  (LOG_ENCODING_MAP.lookup log_space).getD log_space

/-- The curve-encoded image right before the LUT and save steps, for a run
that reaches them: expose, boost with saturation 1.25 and contrast 1.1,
gamut matrix, 1e-6 floor, curve encoding. -/
noncomputable def preEncodeImage (cs : RGB_Colourspace) (M : Mat3)
    (cctf : String → ℝ → ℝ) (cfg : Config) (decoded : Image) : Image :=
  curveStage (cctf (curveNameOf cfg.log_space))
    (floorStage (apply_matrix_inplace M
      (apply_saturation_and_contrast (exposeStage cs cfg decoded) 1.25 1.1)))

/-- The per-image pipeline `core.process_image`, after the external decode
produced `decoded` (rawpy, with the repository's fixed decode settings)
and the EXIF extraction ran.  The collaborators are parameters: `cs` the
ProPhoto source colourspace, `M` the gamut matrix returned by
`colour.matrix_RGB_to_RGB`, `cctf` the colour library's transfer functions
by name, `lutApply` the LUT load-and-apply path for the configured LUT.
Returns the saved raster (or the raised exception) together with the trace
of stages that executed.

The lens-correction stage: `core.process_image` (line 126) calls
`utils.apply_lens_correction(img, exif_data=exif_data, ...)`, but the
function defined in `utils.py` (line 7) has no `exif_data` parameter and
its `raw_path` parameter has no default, so the call itself raises
`TypeError` whenever `lens_correct` is true (see `pythonCallBinds`);
nothing of the warn-and-skip body is reached. -/
noncomputable def process_image (cs : RGB_Colourspace) (M : Mat3)
    (cctf : String → ℝ → ℝ) (lutApply : Image → Except String Image)
    (cfg : Config) (decoded : Image) :
    Except String (List (List (ℤ × ℤ × ℤ))) × List Stage :=
  let trace1 := [Stage.decode, Stage.exposure]
  let img1 := exposeStage cs cfg decoded
  if cfg.lens_correct then
    (Except.error lensCallTypeError, trace1 ++ [Stage.lensCorrection])
  else
    let img2 := apply_saturation_and_contrast img1 1.25 1.1
    let trace2 := trace1 ++ [Stage.boost]
    match LOG_TO_WORKING_SPACE.lookup cfg.log_space with
    | none => (Except.error ("Unknown Log Space: " ++ cfg.log_space), trace2)
    | some _ =>
      let img4 := curveStage (cctf (curveNameOf cfg.log_space))
        (floorStage (apply_matrix_inplace M img2))
      let trace3 := trace2 ++ [Stage.gamutTransform, Stage.curveEncode]
      match cfg.lut_path with
      | none => (Except.ok (encodeImage img4), trace3 ++ [Stage.encode])
      | some _ =>
        let img5 := match lutApply img4 with
          | Except.ok l => clip01 l
          | Except.error _ => img4
        (Except.ok (encodeImage img5), trace3 ++ [Stage.lut, Stage.encode])

/-- Python `str.lower()` (per character, as used on ASCII file names). -/
def pyLower (s : String) : String := String.mk (s.data.map Char.toLower)

/-- Python `str.upper()`. -/
def pyUpper (s : String) : String := String.mk (s.data.map Char.toUpper)

/-- Python `str.endswith(suf)`. -/
def pyEndsWith (s suf : String) : Bool := List.isSuffixOf suf.data s.data

/-- Supported RAW extensions, identical lists in `orchestrator.py` and
`cli.py`. -/
def SUPPORTED_RAW_EXTENSIONS : List String :=
  [".dng", ".cr2", ".cr3", ".nef", ".arw", ".rw2", ".raf", ".orf", ".pef", ".srw"]

/-- Log record delivered through the logging sink: a per-unit success, a
per-unit failure carrying the unit identity (file name) and the causing
message, or a plain warning. -/
inductive LogEntry where
  | success (file : String)
  | failure (file : String) (msg : String)
  | warning (msg : String)
deriving DecidableEq

/-- Input path of an invocation: a single file, or a directory with its
entry listing (`os.listdir` / `glob`). -/
inductive InputPath where
  | file (name : String)
  | dir (entries : List String)

/-- Discovery in `orchestrator.process_path`: for each supported extension,
the directory entries whose lowercased name ends with it
(case-insensitive match). -/
def orchestrator_raw_files (entries : List String) : List String :=
  SUPPORTED_RAW_EXTENSIONS.flatMap (fun ext =>
    entries.filter (fun f => pyEndsWith (pyLower f) ext))

/-- Discovery in `cli.main`: two case-sensitive glob passes per extension,
one lowercase and one uppercase. -/
def cli_raw_files (entries : List String) : List String :=
  SUPPORTED_RAW_EXTENSIONS.flatMap (fun ext =>
    entries.filter (fun f => pyEndsWith f ext) ++
    entries.filter (fun f => pyEndsWith f (pyUpper ext)))

/-- The batch orchestrator `orchestrator.process_path`.  `run` is the
outcome of one full `core.process_image` execution per file (each unit runs
in its own pool worker).  Batch branch: reject a non-directory output,
reject empty discovery, then collect one status per unit — a unit's
exception is caught at `future.result()` and logged with the unit's file
name.  Single-file branch: the unit's exception propagates. -/
def process_path (input : InputPath) (outputIsDir : Bool)
    (run : String → Except String Unit) : Except String (List LogEntry) :=
  match input with
  | InputPath.dir entries =>
    if !outputIsDir then
      Except.error "For batch processing, the output path must be a directory."
    else
      let raw_files := orchestrator_raw_files entries
      if raw_files = [] then
        Except.error "No RAW files found."
      else
        Except.ok (raw_files.map (fun f =>
          match run f with
          | Except.ok _ => LogEntry.success f
          | Except.error e => LogEntry.failure f e))
  | InputPath.file name =>
    match run name with
    | Except.ok _ => Except.ok [LogEntry.success name]
    | Except.error e => Except.error e

/-- The CLI entry point `cli.main`.  Batch branch: an output path that
exists but is not a directory is a usage error; empty discovery prints a
warning and returns normally; otherwise each file is processed inside a
try/except that logs the failure with the file identity and continues.
Single-file branch: the unit's exception propagates. -/
def cli_main (input : InputPath) (outputExists outputIsDir : Bool)
    (run : String → Except String Unit) : Except String (List LogEntry) :=
  match input with
  | InputPath.dir entries =>
    if outputExists && !outputIsDir then
      Except.error "For batch processing, OUTPUT_PATH must be a directory."
    else
      let raw_files := cli_raw_files entries
      if raw_files = [] then
        Except.ok [LogEntry.warning "No supported RAW files found in the input directory."]
      else
        Except.ok (raw_files.map (fun f =>
          match run f with
          | Except.ok _ => LogEntry.success f
          | Except.error e => LogEntry.failure f e))
  | InputPath.file name =>
    match run name with
    | Except.ok _ => Except.ok [LogEntry.success name]
    | Except.error e => Except.error e

/-- Geometric mean of luminance as the specification words it for the
"average" metering mode: the 1e-6 floor added to every per-pixel luminance,
the product over all pixels, and the n-th root (real power 1/n). -/
noncomputable def geometricMeanLum (cs : RGB_Colourspace) (img : Image) : ℝ :=
  ((((pixels img).map (luminanceY cs)).map (fun l => l + 1e-6)).prod)
    ^ ((1 : ℝ) / ((pixels img).length : ℝ))

/-- The "average" gain exactly as claim C4 words it: gain =
0.18 / geometric_mean, clamped to [1.0, 50.0] — with no near-black guard. -/
noncomputable def averageGainClaimed (img : Image) (cs : RGB_Colourspace) : ℝ :=
  npClip (0.18 / geometricMeanLum cs img) 1 50

/-- The "hybrid" gain exactly as claim C3 words it: base gain computed
exactly as the "average" mode does (same formula, guards and clamp), then
the 99th-percentile highlight override, then the final [0.1, 100.0] clamp. -/
noncomputable def hybridGainClaimed (img : Image) (cs : RGB_Colourspace) : ℝ :=
  let base := auto_expose_linear_gain img cs 0.18
  let p99 := npPercentile 99 ((pixels img).map maxRGB)
  let gain := if p99 * base > 6 then 6 / p99 else base
  npClip gain 0.1 100

/-- Clipping to a nonempty interval lands in the interval. -/
lemma npClip_mem (x lo hi : ℝ) (h : lo ≤ hi) :
    lo ≤ npClip x lo hi ∧ npClip x lo hi ≤ hi := by
  unfold npClip
  exact ⟨le_min (le_max_right x lo) h, min_le_right _ _⟩

/-- An element-wise transform that fixes every sample of a raster fixes the
raster. -/
lemma mapPx_eq_self (f : Pixel → Pixel) (img : Image)
    (h : ∀ p ∈ pixels img, f p = p) : mapPx f img = img := by
  unfold mapPx
  have hrow : ∀ row ∈ img, row.map f = row := by
    intro row hrow
    have hp : ∀ p ∈ row, f p = p := by
      intro p hp
      exact h p (by unfold pixels; exact List.mem_flatten.mpr ⟨row, hrow, hp⟩)
    calc row.map f = row.map id := List.map_congr_left hp
      _ = row := List.map_id row
  calc img.map (fun row => row.map f)
      = img.map id := List.map_congr_left (fun row hr => hrow row hr)
    _ = img := List.map_id img

/-- Scaling a raster by 1.0 is the identity. -/
lemma mulImage_one (img : Image) : mulImage img 1 = img := by
  unfold mulImage
  exact mapPx_eq_self _ img (by intro p _; simp)

/-- A percentile of a list of nonnegative values is nonnegative. -/
lemma npPercentile_nonneg (q : ℝ) (xs : List ℝ) (h : ∀ x ∈ xs, 0 ≤ x) :
    0 ≤ npPercentile q xs := by
  simp only [npPercentile]
  set s := List.insertionSort (· ≤ ·) xs with hs
  have hmem : ∀ x ∈ s, 0 ≤ x := by
    intro x hx
    exact h x ((List.perm_insertionSort (· ≤ ·) xs).mem_iff.mp hx)
  have hgetD : ∀ i : ℕ, 0 ≤ s.getD i 0 := by
    intro i
    rcases lt_or_le i s.length with hlt | hle
    · rw [List.getD_eq_getElem s 0 hlt]
      exact hmem _ (List.getElem_mem hlt)
    · rw [List.getD_eq_default s 0 hle]
  set pos : ℝ := q / 100 * ((xs.length : ℝ) - 1) with hpos
  have hf0 : 0 ≤ pos - (⌊pos⌋ : ℝ) := by
    have := Int.floor_le pos
    linarith
  have hf1 : pos - (⌊pos⌋ : ℝ) ≤ 1 := by
    have := Int.lt_floor_add_one pos
    linarith
  have ha := hgetD (⌊pos⌋.toNat)
  have hb := hgetD (⌈pos⌉.toNat)
  nlinarith [mul_nonneg hf0 hb, mul_nonneg (sub_nonneg.mpr hf1) ha]

/-- Percentile of a one-element list is that element, for any quantile. -/
lemma npPercentile_singleton (q x : ℝ) : npPercentile q [x] = x := by
  simp [npPercentile, List.insertionSort, List.orderedInsert]

/-- Exponential of a list sum of logarithms of positive reals is their
product. -/
lemma real_exp_sum_log (l : List ℝ) (h : ∀ x ∈ l, 0 < x) :
    Real.exp ((l.map Real.log).sum) = l.prod := by
  induction l with
  | nil => simp
  | cons a t ih =>
    have ha : 0 < a := h a (List.mem_cons_self a t)
    have ht : ∀ x ∈ t, 0 < x := fun x hx => h x (List.mem_cons_of_mem a hx)
    simp [Real.exp_add, Real.exp_log ha, ih ht]

/-- Exponentiated mean of logs of positive reals is the n-th root of the
product: the two renderings of a geometric mean coincide. -/
lemma exp_npMean_log (l : List ℝ) (h : ∀ x ∈ l, 0 < x) :
    Real.exp (npMean (l.map Real.log)) = l.prod ^ ((1 : ℝ) / (l.length : ℝ)) := by
  have hp : 0 < l.prod := List.prod_pos h
  have hlog : Real.log l.prod = (l.map Real.log).sum := by
    rw [← real_exp_sum_log l h, Real.log_exp]
  rw [npMean, List.length_map, Real.rpow_def_of_pos hp, hlog]
  congr 1
  ring

/-- The code's `exp(mean(log(luminance + 1e-6)))` equals the spec's
geometric mean (n-th root of the product of floored luminances), for
nonnegative luminances. -/
lemma avgLum_eq_geometricMean (img : Image) (cs : RGB_Colourspace)
    (h : ∀ p ∈ pixels img, 0 ≤ luminanceY cs p) :
    Real.exp (npMean (((pixels img).map (luminanceY cs)).map
        (fun l => Real.log (l + 1e-6)))) = geometricMeanLum cs img := by
  have hcomp : ((pixels img).map (luminanceY cs)).map (fun l => Real.log (l + 1e-6))
      = (((pixels img).map (luminanceY cs)).map (fun l => l + 1e-6)).map Real.log := by
    simp only [List.map_map]
    rfl
  have hpos : ∀ x ∈ ((pixels img).map (luminanceY cs)).map (fun l => l + 1e-6), 0 < x := by
    intro x hx
    obtain ⟨l, hl, rfl⟩ := List.mem_map.mp hx
    obtain ⟨p, hp, rfl⟩ := List.mem_map.mp hl
    have := h p hp
    have hq : (0 : ℝ) < 1e-6 := by norm_num
    linarith
  rw [hcomp, exp_npMean_log _ hpos]
  unfold geometricMeanLum
  rw [List.length_map, List.length_map]

/-- Concrete colourspace used for the concrete evaluations: its Y row is
(0, 1, 0), so luminance is the green channel. -/
noncomputable def csDemo : RGB_Colourspace := ⟨(0, 1, 0)⟩

/-- A one-pixel all-zero (all-black) raster. -/
noncomputable def zeroImg : Image := [[(0, 0, 0)]]

/-- A one-pixel very dark raster with luminance 9e-6. -/
noncomputable def darkImg : Image := [[(0, 0.000009, 0)]]

/-- The identity 3x3 matrix, a concrete gamut matrix. -/
noncomputable def idMat3 : Mat3 := ((1, 0, 0), (0, 1, 0), (0, 0, 1))

/-- Luminance list of the all-zero one-pixel raster. -/
lemma zeroImg_lums : (pixels zeroImg).map (luminanceY csDemo) = [0] := by
  have hpx : pixels zeroImg = [((0 : ℝ), 0, 0)] := rfl
  rw [hpx]
  simp [luminanceY, csDemo]

/-- Channel-max list of the all-zero one-pixel raster. -/
lemma zeroImg_maxvals : (pixels zeroImg).map maxRGB = [0] := by
  have hpx : pixels zeroImg = [((0 : ℝ), 0, 0)] := rfl
  rw [hpx]
  simp [maxRGB]

/-- Exponentiated mean log-luminance of the all-zero raster is exactly the
1e-6 floor. -/
lemma zeroImg_avgLum :
    Real.exp (npMean (((pixels zeroImg).map (luminanceY csDemo)).map
      (fun l => Real.log (l + 1e-6)))) = 1e-6 := by
  rw [zeroImg_lums]
  simp only [List.map_cons, List.map_nil]
  rw [npMean]
  simp only [List.sum_cons, List.sum_nil, List.length_cons, List.length_nil]
  norm_num
  exact Real.exp_log (by norm_num)

/-- Luminance list of the dark one-pixel raster. -/
lemma darkImg_lums : (pixels darkImg).map (luminanceY csDemo) = [0.000009] := by
  have hpx : pixels darkImg = [((0 : ℝ), 0.000009, 0)] := rfl
  rw [hpx]
  simp [luminanceY, csDemo]

/-- Exponentiated mean log-luminance of the dark raster is 1e-5. -/
lemma darkImg_avgLum :
    Real.exp (npMean (((pixels darkImg).map (luminanceY csDemo)).map
      (fun l => Real.log (l + 1e-6)))) = 0.00001 := by
  rw [darkImg_lums]
  simp only [List.map_cons, List.map_nil]
  rw [npMean]
  simp only [List.sum_cons, List.sum_nil, List.length_cons, List.length_nil]
  have he : (0.000009 : ℝ) + 1e-6 = 0.00001 := by norm_num
  norm_num [he]
  exact Real.exp_log (by norm_num)

/-- A property holding for one pixel holds for all pixels of the one-pixel
raster containing it. -/
lemma forall_pixels_single (P : Pixel → Prop) (p : Pixel) (hp : P p) :
    ∀ q ∈ pixels [[p]], P q := by
  intro q hq
  have hqp : q = p := by simpa [pixels] using hq
  rwa [hqp]

/-- C4, amended: the "average" metering mode computes luminance through the
source colourspace's exact RGB-to-reference-luminance transform, takes the
geometric mean over all pixels with the 1e-6 floor, sets gain =
0.18 / geometric_mean except that a geometric mean below 1e-4 (nearly
black) yields gain 1.0, clamps the gain to [1.0, 50.0], and returns the
image scaled by that single scalar gain. -/
theorem average_metering_spec (img : Image) (cs : RGB_Colourspace)
    (hpos : ∀ p ∈ pixels img, 0 ≤ luminanceY cs p) :
    auto_expose_linear_gain img cs 0.18 =
      npClip (if geometricMeanLum cs img < 0.0001 then 1
        else 0.18 / geometricMeanLum cs img) 1 50
    ∧ auto_expose_linear img cs 0.18 =
      mulImage img (auto_expose_linear_gain img cs 0.18) := by
  refine ⟨?_, rfl⟩
  simp only [auto_expose_linear_gain]
  rw [avgLum_eq_geometricMean img cs hpos]

/-- C4 fails as stated: on a dark one-pixel image the code's guard returns
gain 1.0 while the claimed formula 0.18 / geometric_mean, clamped to
[1.0, 50.0], gives 50. -/
theorem c4_counterexample :
    auto_expose_linear_gain darkImg csDemo 0.18 = 1
    ∧ averageGainClaimed darkImg csDemo = 50
    ∧ auto_expose_linear_gain darkImg csDemo 0.18 ≠ averageGainClaimed darkImg csDemo := by
  have hsrc : auto_expose_linear_gain darkImg csDemo 0.18 = 1 := by
    simp only [auto_expose_linear_gain]
    rw [darkImg_avgLum]
    rw [if_pos (by norm_num : (0.00001 : ℝ) < 0.0001)]
    unfold npClip
    rw [max_self]
    exact min_eq_left (by norm_num)
  have hgm : geometricMeanLum csDemo darkImg = 0.00001 := by
    unfold geometricMeanLum
    rw [darkImg_lums]
    have hl : ((pixels darkImg).length : ℝ) = 1 := by norm_num [pixels, darkImg]
    rw [hl]
    simp only [List.map_cons, List.map_nil, List.prod_cons, List.prod_nil, mul_one]
    have he : (0.000009 : ℝ) + 1e-6 = 0.00001 := by norm_num
    rw [he, show ((1 : ℝ) / 1) = 1 from by norm_num, Real.rpow_one]
  have hclaim : averageGainClaimed darkImg csDemo = 50 := by
    unfold averageGainClaimed
    rw [hgm]
    unfold npClip
    rw [max_eq_left (by norm_num : (1 : ℝ) ≤ 0.18 / 0.00001)]
    exact min_eq_right (by norm_num)
  exact ⟨hsrc, hclaim, by rw [hsrc, hclaim]; norm_num⟩

/-- Witness for C4: the amended average-metering characterisation holds at
a concrete mid-gray one-pixel image. -/
theorem c4_witness :
    (∀ p ∈ pixels [[((0 : ℝ), 0.5, 0)]], 0 ≤ luminanceY csDemo p)
    ∧ (auto_expose_linear_gain [[((0 : ℝ), 0.5, 0)]] csDemo 0.18 =
        npClip (if geometricMeanLum csDemo [[((0 : ℝ), 0.5, 0)]] < 0.0001 then 1
          else 0.18 / geometricMeanLum csDemo [[((0 : ℝ), 0.5, 0)]]) 1 50
      ∧ auto_expose_linear [[((0 : ℝ), 0.5, 0)]] csDemo 0.18 =
        mulImage [[((0 : ℝ), 0.5, 0)]]
          (auto_expose_linear_gain [[((0 : ℝ), 0.5, 0)]] csDemo 0.18)) :=
  ⟨forall_pixels_single (fun q => 0 ≤ luminanceY csDemo q) ((0 : ℝ), 0.5, 0)
      (by norm_num [luminanceY, csDemo]),
   average_metering_spec [[((0 : ℝ), 0.5, 0)]] csDemo
    (forall_pixels_single (fun q => 0 ≤ luminanceY csDemo q) ((0 : ℝ), 0.5, 0)
      (by norm_num [luminanceY, csDemo]))⟩

/-- C3, amended: the "hybrid" mode computes the same geometric mean of
luminance as "average" but derives its base gain as
0.18 / (geometric_mean + 1e-6) with no near-black guard and no [1.0, 50.0]
clamp; it computes the 99th percentile of max(R,G,B), overrides the gain to
6.0 / percentile99 exactly when percentile99 x base_gain exceeds 6.0,
otherwise keeps the base gain, and finally clamps to [0.1, 100.0]. -/
theorem hybrid_metering_spec (img : Image) (cs : RGB_Colourspace)
    (hpos : ∀ p ∈ pixels img, 0 ≤ luminanceY cs p) :
    auto_expose_hybrid_gain img cs 0.18 =
      npClip (if npPercentile 99 ((pixels img).map maxRGB)
            * (0.18 / (geometricMeanLum cs img + 1e-6)) > 6
        then 6 / npPercentile 99 ((pixels img).map maxRGB)
        else 0.18 / (geometricMeanLum cs img + 1e-6)) 0.1 100
    ∧ auto_expose_hybrid img cs 0.18 =
      mulImage img (auto_expose_hybrid_gain img cs 0.18) := by
  refine ⟨?_, rfl⟩
  simp only [auto_expose_hybrid_gain]
  rw [avgLum_eq_geometricMean img cs hpos]

/-- C3 fails as stated: on the all-zero one-pixel image the code's hybrid
gain is 100 (base gain 0.18 / 2e-6 = 90000 clipped to 100) while a base
gain computed exactly as the "average" mode (guard and [1.0, 50.0] clamp
included) yields a final hybrid gain of 1. -/
theorem c3_counterexample :
    auto_expose_hybrid_gain zeroImg csDemo 0.18 = 100
    ∧ hybridGainClaimed zeroImg csDemo = 1
    ∧ auto_expose_hybrid_gain zeroImg csDemo 0.18 ≠ hybridGainClaimed zeroImg csDemo := by
  have hp99 : npPercentile 99 ((pixels zeroImg).map maxRGB) = 0 := by
    rw [zeroImg_maxvals]
    exact npPercentile_singleton 99 0
  have hsrc : auto_expose_hybrid_gain zeroImg csDemo 0.18 = 100 := by
    simp only [auto_expose_hybrid_gain]
    rw [zeroImg_avgLum, hp99]
    rw [if_neg (by norm_num : ¬((0 : ℝ) * (0.18 / ((1e-6 : ℝ) + 1e-6)) > 6))]
    unfold npClip
    rw [max_eq_left (by norm_num : (0.1 : ℝ) ≤ 0.18 / ((1e-6 : ℝ) + 1e-6))]
    exact min_eq_right (by norm_num)
  have hbase : auto_expose_linear_gain zeroImg csDemo 0.18 = 1 := by
    simp only [auto_expose_linear_gain]
    rw [zeroImg_avgLum]
    rw [if_pos (by norm_num : (1e-6 : ℝ) < 0.0001)]
    unfold npClip
    rw [max_self]
    exact min_eq_left (by norm_num)
  have hclaim : hybridGainClaimed zeroImg csDemo = 1 := by
    simp only [hybridGainClaimed]
    rw [hbase, hp99]
    rw [if_neg (by norm_num : ¬((0 : ℝ) * 1 > 6))]
    unfold npClip
    rw [max_eq_left (by norm_num : (0.1 : ℝ) ≤ 1)]
    exact min_eq_left (by norm_num)
  exact ⟨hsrc, hclaim, by rw [hsrc, hclaim]; norm_num⟩

/-- Witness for C3: the amended hybrid-metering characterisation holds at a
concrete one-pixel image. -/
theorem c3_witness :
    (∀ p ∈ pixels [[((0.2 : ℝ), 0.3, 0.4)]], 0 ≤ luminanceY csDemo p)
    ∧ (auto_expose_hybrid_gain [[((0.2 : ℝ), 0.3, 0.4)]] csDemo 0.18 =
        npClip (if npPercentile 99 ((pixels [[((0.2 : ℝ), 0.3, 0.4)]]).map maxRGB)
              * (0.18 / (geometricMeanLum csDemo [[((0.2 : ℝ), 0.3, 0.4)]] + 1e-6)) > 6
          then 6 / npPercentile 99 ((pixels [[((0.2 : ℝ), 0.3, 0.4)]]).map maxRGB)
          else 0.18 / (geometricMeanLum csDemo [[((0.2 : ℝ), 0.3, 0.4)]] + 1e-6)) 0.1 100
      ∧ auto_expose_hybrid [[((0.2 : ℝ), 0.3, 0.4)]] csDemo 0.18 =
        mulImage [[((0.2 : ℝ), 0.3, 0.4)]]
          (auto_expose_hybrid_gain [[((0.2 : ℝ), 0.3, 0.4)]] csDemo 0.18)) :=
  ⟨forall_pixels_single (fun q => 0 ≤ luminanceY csDemo q) ((0.2 : ℝ), 0.3, 0.4)
      (by norm_num [luminanceY, csDemo]),
   hybrid_metering_spec [[((0.2 : ℝ), 0.3, 0.4)]] csDemo
    (forall_pixels_single (fun q => 0 ≤ luminanceY csDemo q) ((0.2 : ℝ), 0.3, 0.4)
      (by norm_num [luminanceY, csDemo]))⟩

/-- C6: for every image with nonnegative samples, each of the four metering
modes yields a strictly positive, finite gain within its documented clamp
bounds — [1, 50] for "average", [0.1, 100] for "center-weighted" and
"hybrid", and (0, 0.9/1e-6] for "highlight-safe" (whose only bound comes
from its formula and percentile floor) — and, the functions being total,
returns without raising. -/
theorem metering_gain_bounds (img : Image) (cs : RGB_Colourspace)
    (hpos : ∀ p ∈ pixels img, 0 ≤ p.1 ∧ 0 ≤ p.2.1 ∧ 0 ≤ p.2.2) :
    (0 < auto_expose_linear_gain img cs 0.18
      ∧ 1 ≤ auto_expose_linear_gain img cs 0.18
      ∧ auto_expose_linear_gain img cs 0.18 ≤ 50)
    ∧ (0 < auto_expose_center_weighted_gain img cs 0.18
      ∧ 0.1 ≤ auto_expose_center_weighted_gain img cs 0.18
      ∧ auto_expose_center_weighted_gain img cs 0.18 ≤ 100)
    ∧ (0 < auto_expose_highlight_safe_gain img
      ∧ auto_expose_highlight_safe_gain img ≤ 900000)
    ∧ (0 < auto_expose_hybrid_gain img cs 0.18
      ∧ 0.1 ≤ auto_expose_hybrid_gain img cs 0.18
      ∧ auto_expose_hybrid_gain img cs 0.18 ≤ 100) := by
  have hlin : 1 ≤ auto_expose_linear_gain img cs 0.18
      ∧ auto_expose_linear_gain img cs 0.18 ≤ 50 := by
    simp only [auto_expose_linear_gain]
    exact npClip_mem _ 1 50 (by norm_num)
  have hcw : 0.1 ≤ auto_expose_center_weighted_gain img cs 0.18
      ∧ auto_expose_center_weighted_gain img cs 0.18 ≤ 100 := by
    simp only [auto_expose_center_weighted_gain]
    exact npClip_mem _ 0.1 100 (by norm_num)
  have hhy : 0.1 ≤ auto_expose_hybrid_gain img cs 0.18
      ∧ auto_expose_hybrid_gain img cs 0.18 ≤ 100 := by
    simp only [auto_expose_hybrid_gain]
    exact npClip_mem _ 0.1 100 (by norm_num)
  have hmax : ∀ v ∈ (pixels img).map maxRGB, 0 ≤ v := by
    intro v hv
    obtain ⟨p, hp, rfl⟩ := List.mem_map.mp hv
    have h := (hpos p hp).1
    unfold maxRGB
    exact le_trans h (le_max_left _ _)
  have hhs : 0 < auto_expose_highlight_safe_gain img
      ∧ auto_expose_highlight_safe_gain img ≤ 900000 := by
    have hpnn : 0 ≤ npPercentile 99.5 ((pixels img).map maxRGB) :=
      npPercentile_nonneg _ _ hmax
    simp only [auto_expose_highlight_safe_gain]
    by_cases h : npPercentile 99.5 ((pixels img).map maxRGB) < 1e-6
    · rw [if_pos h]
      norm_num
    · rw [if_neg h]
      push_neg at h
      have hp0 : (0 : ℝ) < npPercentile 99.5 ((pixels img).map maxRGB) :=
        lt_of_lt_of_le (by norm_num) h
      constructor
      · exact div_pos (by norm_num) hp0
      · rw [div_le_iff₀ hp0]
        nlinarith [h]
  exact ⟨⟨lt_of_lt_of_le one_pos hlin.1, hlin⟩,
    ⟨lt_of_lt_of_le (by norm_num) hcw.1, hcw⟩,
    hhs,
    ⟨lt_of_lt_of_le (by norm_num) hhy.1, hhy⟩⟩

/-- Witness for C6: the bounds hold at the concrete all-zero one-pixel
image. -/
theorem c6_witness :
    (∀ p ∈ pixels [[((0 : ℝ), 0, 0)]], 0 ≤ p.1 ∧ 0 ≤ p.2.1 ∧ 0 ≤ p.2.2)
    ∧ ((0 < auto_expose_linear_gain [[((0 : ℝ), 0, 0)]] csDemo 0.18
      ∧ 1 ≤ auto_expose_linear_gain [[((0 : ℝ), 0, 0)]] csDemo 0.18
      ∧ auto_expose_linear_gain [[((0 : ℝ), 0, 0)]] csDemo 0.18 ≤ 50)
    ∧ (0 < auto_expose_center_weighted_gain [[((0 : ℝ), 0, 0)]] csDemo 0.18
      ∧ 0.1 ≤ auto_expose_center_weighted_gain [[((0 : ℝ), 0, 0)]] csDemo 0.18
      ∧ auto_expose_center_weighted_gain [[((0 : ℝ), 0, 0)]] csDemo 0.18 ≤ 100)
    ∧ (0 < auto_expose_highlight_safe_gain [[((0 : ℝ), 0, 0)]]
      ∧ auto_expose_highlight_safe_gain [[((0 : ℝ), 0, 0)]] ≤ 900000)
    ∧ (0 < auto_expose_hybrid_gain [[((0 : ℝ), 0, 0)]] csDemo 0.18
      ∧ 0.1 ≤ auto_expose_hybrid_gain [[((0 : ℝ), 0, 0)]] csDemo 0.18
      ∧ auto_expose_hybrid_gain [[((0 : ℝ), 0, 0)]] csDemo 0.18 ≤ 100)) :=
  ⟨forall_pixels_single (fun p => 0 ≤ p.1 ∧ 0 ≤ p.2.1 ∧ 0 ≤ p.2.2) ((0 : ℝ), 0, 0)
      (by norm_num),
   metering_gain_bounds [[((0 : ℝ), 0, 0)]] csDemo
    (forall_pixels_single (fun p => 0 ≤ p.1 ∧ 0 ≤ p.2.1 ∧ 0 ≤ p.2.2) ((0 : ℝ), 0, 0)
      (by norm_num))⟩

/-- C9: the saturation/contrast boost with saturation 1.0 and contrast 1.0
is the identity on every image whose samples are all nonnegative. -/
theorem boost_identity (img : Image)
    (hpos : ∀ p ∈ pixels img, 0 ≤ p.1 ∧ 0 ≤ p.2.1 ∧ 0 ≤ p.2.2) :
    apply_saturation_and_contrast img 1 1 = img := by
  simp only [apply_saturation_and_contrast]
  apply mapPx_eq_self
  intro p hp
  obtain ⟨h1, h2, h3⟩ := hpos p hp
  have h : ∀ c : ℝ, 0 ≤ c →
      max ((0.2126 * p.1 + 0.7152 * p.2.1 + 0.0722 * p.2.2
        + (c - (0.2126 * p.1 + 0.7152 * p.2.1 + 0.0722 * p.2.2)) * 1 - 0.18) * 1
        + 0.18) 0 = c := by
    intro c hc
    have harg : (0.2126 * p.1 + 0.7152 * p.2.1 + 0.0722 * p.2.2
        + (c - (0.2126 * p.1 + 0.7152 * p.2.1 + 0.0722 * p.2.2)) * 1 - 0.18) * 1
        + 0.18 = c := by ring
    rw [harg]
    exact max_eq_left hc
  rw [h p.1 h1, h p.2.1 h2, h p.2.2 h3]

/-- Witness for C9: the boost at (1.0, 1.0) fixes a concrete one-pixel
image. -/
theorem c9_witness :
    (∀ p ∈ pixels [[((0.5 : ℝ), 0.25, 0)]], 0 ≤ p.1 ∧ 0 ≤ p.2.1 ∧ 0 ≤ p.2.2)
    ∧ apply_saturation_and_contrast [[((0.5 : ℝ), 0.25, 0)]] 1 1
      = [[((0.5 : ℝ), 0.25, 0)]] :=
  ⟨forall_pixels_single (fun p => 0 ≤ p.1 ∧ 0 ≤ p.2.1 ∧ 0 ≤ p.2.2)
      ((0.5 : ℝ), 0.25, 0) (by norm_num),
   boost_identity [[((0.5 : ℝ), 0.25, 0)]]
    (forall_pixels_single (fun p => 0 ≤ p.1 ∧ 0 ≤ p.2.1 ∧ 0 ≤ p.2.2)
      ((0.5 : ℝ), 0.25, 0) (by norm_num))⟩

/-- C5: a supplied manual exposure makes the expose stage bypass all four
metering modes (whatever the metering mode, the result is the uniform
scalar gain 2^stops applied in place), and stops = 0 yields exactly a
pass-through multiply by 1.0, which is the identity. -/
theorem manual_exposure_bypass (cs : RGB_Colourspace) (cfg : Config)
    (img : Image) (e : ℝ) (h : cfg.exposure = some e) :
    exposeStage cs cfg img = apply_gain_inplace img ((2 : ℝ) ^ e)
    ∧ apply_gain_inplace img ((2 : ℝ) ^ (0 : ℝ)) = mulImage img 1
    ∧ mulImage img 1 = img := by
  refine ⟨?_, ?_, mulImage_one img⟩
  · simp only [exposeStage, h]
  · rw [Real.rpow_zero]
    rfl

/-- Manual-exposure configuration with stops = 0 used by the concrete
evaluations. -/
noncomputable def cfgManual : Config :=
  ⟨"F-Log", none, some 0, false, "average"⟩

/-- Witness for C5: the manual-exposure bypass evaluated at stops = 0 on a
concrete one-pixel image. -/
theorem c5_witness :
    cfgManual.exposure = some 0
    ∧ (exposeStage csDemo cfgManual [[((0.25 : ℝ), 0.5, 0.75)]]
        = apply_gain_inplace [[((0.25 : ℝ), 0.5, 0.75)]] ((2 : ℝ) ^ (0 : ℝ))
      ∧ apply_gain_inplace [[((0.25 : ℝ), 0.5, 0.75)]] ((2 : ℝ) ^ (0 : ℝ))
        = mulImage [[((0.25 : ℝ), 0.5, 0.75)]] 1
      ∧ mulImage [[((0.25 : ℝ), 0.5, 0.75)]] 1 = [[((0.25 : ℝ), 0.5, 0.75)]]) :=
  ⟨rfl, manual_exposure_bypass csDemo cfgManual [[((0.25 : ℝ), 0.5, 0.75)]] 0 rfl⟩

/-- C1, amended: with lens correction disabled (with it enabled the run
fails even earlier, at the lens stage), an unknown log-space name raises
the Unknown-Log-Space configuration error only at the colour-transform
step: decoding, exposure and the boost have already executed, and no gamut
transform, curve encoding, LUT application or output encoding runs. -/
theorem unknown_log_space_raises_mid_pipeline (cs : RGB_Colourspace) (M : Mat3)
    (cctf : String → ℝ → ℝ) (lutApply : Image → Except String Image)
    (cfg : Config) (img : Image)
    (hlens : cfg.lens_correct = false)
    (hlog : LOG_TO_WORKING_SPACE.lookup cfg.log_space = none) :
    process_image cs M cctf lutApply cfg img =
      (Except.error ("Unknown Log Space: " ++ cfg.log_space),
       [Stage.decode, Stage.exposure, Stage.boost]) := by
  simp [process_image, hlens, hlog]

/-- Configuration naming a log space absent from the descriptor table. -/
noncomputable def cfgBadLog : Config := ⟨"Rec.709", none, none, false, "hybrid"⟩

/-- C1 fails as stated: at a concrete invocation with the unknown log-space
name "Rec.709" the configuration error is raised, but only after the
exposure and boost stages already performed their per-pixel work — the
executed-stage trace is [decode, exposure, boost], not [decode] alone. -/
theorem c1_counterexample :
    (process_image csDemo idMat3 (fun _ => id) (fun i => Except.ok i) cfgBadLog
        [[((0.5 : ℝ), 0.5, 0.5)]]).1
      = Except.error "Unknown Log Space: Rec.709"
    ∧ (process_image csDemo idMat3 (fun _ => id) (fun i => Except.ok i) cfgBadLog
        [[((0.5 : ℝ), 0.5, 0.5)]]).2
      = [Stage.decode, Stage.exposure, Stage.boost]
    ∧ Stage.exposure ∈ (process_image csDemo idMat3 (fun _ => id) (fun i => Except.ok i)
        cfgBadLog [[((0.5 : ℝ), 0.5, 0.5)]]).2 := by
  refine ⟨rfl, rfl, ?_⟩
  have h2 : (process_image csDemo idMat3 (fun _ => id) (fun i => Except.ok i) cfgBadLog
      [[((0.5 : ℝ), 0.5, 0.5)]]).2 = [Stage.decode, Stage.exposure, Stage.boost] := rfl
  rw [h2]
  simp

/-- Witness for C1: the amended mid-pipeline error behaviour at the
concrete unknown-log-space configuration. -/
theorem c1_witness :
    cfgBadLog.lens_correct = false
    ∧ LOG_TO_WORKING_SPACE.lookup cfgBadLog.log_space = none
    ∧ process_image csDemo idMat3 (fun _ => id) (fun i => Except.ok i) cfgBadLog
        [[((0.7 : ℝ), 0.2, 0.1)]]
      = (Except.error ("Unknown Log Space: " ++ cfgBadLog.log_space),
         [Stage.decode, Stage.exposure, Stage.boost]) :=
  ⟨rfl, rfl, unknown_log_space_raises_mid_pipeline csDemo idMat3 (fun _ => id)
    (fun i => Except.ok i) cfgBadLog [[((0.7 : ℝ), 0.2, 0.1)]] rfl rfl⟩

/-- Configuration with lens correction enabled. -/
noncomputable def cfgLensOn : Config := ⟨"F-Log", none, some 0, true, "hybrid"⟩

/-- C2: the claim describes the intended warn-and-skip, which the body of
`utils.apply_lens_correction` indeed implements (third conjunct: missing
lens metadata returns the image unchanged with a warning); but the call in
`core.process_image` does not bind to that function's parameters — the
keyword `exif_data` names no parameter and `raw_path` stays unbound (first
conjunct) — so Python raises `TypeError` and the embedded pipeline errors
whenever lens correction is enabled (second conjunct, at a concrete
invocation). -/
theorem lens_correction_call_raises_type_error :
    pythonCallBinds apply_lens_correction_params apply_lens_correction_required 1
      process_image_lens_call_kwargs = false
    ∧ (process_image csDemo idMat3 (fun _ => id) (fun i => Except.ok i) cfgLensOn
        [[((0.5 : ℝ), 0.5, 0.5)]]).1 = Except.error lensCallTypeError
    ∧ apply_lens_correction [[((0.5 : ℝ), 0.5, 0.5)]] {} none none none none none none
        (Except.ok [[((0.9 : ℝ), 0.9, 0.9)]])
      = ([[((0.5 : ℝ), 0.5, 0.5)]],
         ["[Warning] Missing camera or lens info. Skipping lens correction."]) := by
  exact ⟨by decide, rfl, rfl⟩

/-- C10: when no LUT path is configured, or when the LUT collaborator fails
before the post-LUT clip, the saved raster is exactly the curve-encoded
image pushed through the unclamped multiply-by-65535-and-cast encoding;
the cast wraps (1.5 encodes to 32766) instead of saturating to 65535. -/
theorem no_clamp_between_curve_and_save (cs : RGB_Colourspace) (M : Mat3)
    (cctf : String → ℝ → ℝ) (lutApply : Image → Except String Image)
    (cfg : Config) (img : Image) (g : String)
    (hlens : cfg.lens_correct = false)
    (hlog : LOG_TO_WORKING_SPACE.lookup cfg.log_space = some g)
    (hlut : cfg.lut_path = none
      ∨ (lutApply (preEncodeImage cs M cctf cfg img)).isOk = false) :
    (process_image cs M cctf lutApply cfg img).1
      = Except.ok (encodeImage (preEncodeImage cs M cctf cfg img))
    ∧ castToUInt16 ((3 / 2 : ℝ) * 65535) = 32766
    ∧ (32766 : ℤ) ≠ 65535 := by
  refine ⟨?_, ?_, by decide⟩
  · rcases hlut with hnone | herr
    · simp [process_image, hlens, hlog, hnone, preEncodeImage]
    · cases hcase : cfg.lut_path with
      | none => simp [process_image, hlens, hlog, hcase, preEncodeImage]
      | some p =>
        cases hE : lutApply (preEncodeImage cs M cctf cfg img) with
        | ok v =>
          rw [hE] at herr
          simp [Except.isOk, Except.toBool] at herr
        | error msg =>
          simp only [preEncodeImage] at hE
          simp [process_image, hlens, hlog, hcase, hE, preEncodeImage]
  · have h0 : ((3 / 2 : ℝ) * 65535) = 98302.5 := by norm_num
    unfold castToUInt16 truncTowardZero
    rw [h0, if_pos (by norm_num : (0 : ℝ) ≤ 98302.5)]
    have hf : (⌊(98302.5 : ℝ)⌋ : ℤ) = 98302 := by norm_num
    rw [hf]
    decide

/-- Configuration with a valid log space, no LUT and lens correction off. -/
noncomputable def cfgNoLut : Config := ⟨"F-Log", none, some 0, false, "hybrid"⟩

/-- Witness for C10: the unclamped encode path at a concrete no-LUT
configuration. -/
theorem c10_witness :
    cfgNoLut.lens_correct = false
    ∧ LOG_TO_WORKING_SPACE.lookup cfgNoLut.log_space = some "F-Gamut"
    ∧ cfgNoLut.lut_path = none
    ∧ ((process_image csDemo idMat3 (fun _ => id) (fun i => Except.ok i) cfgNoLut
          [[((0.5 : ℝ), 0.5, 0.5)]]).1
        = Except.ok (encodeImage (preEncodeImage csDemo idMat3 (fun _ => id) cfgNoLut
            [[((0.5 : ℝ), 0.5, 0.5)]]))
      ∧ castToUInt16 ((3 / 2 : ℝ) * 65535) = 32766
      ∧ (32766 : ℤ) ≠ 65535) :=
  ⟨rfl, rfl, rfl, no_clamp_between_curve_and_save csDemo idMat3 (fun _ => id)
    (fun i => Except.ok i) cfgNoLut [[((0.5 : ℝ), 0.5, 0.5)]] "F-Gamut" rfl rfl
    (Or.inl rfl)⟩

/-- C7: in batch mode every unit failure is caught at the unit boundary and
logged with the unit's file name and the causing message; sibling units keep
their own statuses and the batch invocation itself returns normally, in
both the orchestrator and the CLI batch loop, for every possible per-unit
outcome function. -/
theorem batch_unit_failure_isolated (entries : List String)
    (run : String → Except String Unit)
    (hne : orchestrator_raw_files entries ≠ [])
    (hne2 : cli_raw_files entries ≠ []) :
    (∃ logs, process_path (InputPath.dir entries) true run = Except.ok logs
      ∧ (∀ f msg, f ∈ orchestrator_raw_files entries → run f = Except.error msg →
          LogEntry.failure f msg ∈ logs)
      ∧ (∀ f, f ∈ orchestrator_raw_files entries → run f = Except.ok () →
          LogEntry.success f ∈ logs))
    ∧ (∃ logs, cli_main (InputPath.dir entries) true true run = Except.ok logs
      ∧ (∀ f msg, f ∈ cli_raw_files entries → run f = Except.error msg →
          LogEntry.failure f msg ∈ logs)
      ∧ (∀ f, f ∈ cli_raw_files entries → run f = Except.ok () →
          LogEntry.success f ∈ logs)) := by
  constructor
  · refine ⟨(orchestrator_raw_files entries).map (fun f =>
      match run f with
      | Except.ok _ => LogEntry.success f
      | Except.error e => LogEntry.failure f e), ?_, ?_, ?_⟩
    · simp [process_path, hne]
    · intro f msg hf hrun
      exact List.mem_map.mpr ⟨f, hf, by rw [hrun]⟩
    · intro f hf hrun
      exact List.mem_map.mpr ⟨f, hf, by rw [hrun]⟩
  · refine ⟨(cli_raw_files entries).map (fun f =>
      match run f with
      | Except.ok _ => LogEntry.success f
      | Except.error e => LogEntry.failure f e), ?_, ?_, ?_⟩
    · simp [cli_main, hne2]
    · intro f msg hf hrun
      exact List.mem_map.mpr ⟨f, hf, by rw [hrun]⟩
    · intro f hf hrun
      exact List.mem_map.mpr ⟨f, hf, by rw [hrun]⟩

/-- Per-unit outcome used by the concrete batch evaluation: the first file
fails to decode, every other file succeeds. -/
def runDemo : String → Except String Unit :=
  fun f => if f = "a.dng" then Except.error "decode failed" else Except.ok ()

/-- Witness for C7: a concrete two-file batch with one failing unit. -/
theorem c7_witness :
    orchestrator_raw_files ["a.dng", "b.CR2"] ≠ []
    ∧ cli_raw_files ["a.dng", "b.CR2"] ≠ []
    ∧ ((∃ logs, process_path (InputPath.dir ["a.dng", "b.CR2"]) true runDemo
          = Except.ok logs
        ∧ (∀ f msg, f ∈ orchestrator_raw_files ["a.dng", "b.CR2"] →
            runDemo f = Except.error msg → LogEntry.failure f msg ∈ logs)
        ∧ (∀ f, f ∈ orchestrator_raw_files ["a.dng", "b.CR2"] →
            runDemo f = Except.ok () → LogEntry.success f ∈ logs))
      ∧ (∃ logs, cli_main (InputPath.dir ["a.dng", "b.CR2"]) true true runDemo
          = Except.ok logs
        ∧ (∀ f msg, f ∈ cli_raw_files ["a.dng", "b.CR2"] →
            runDemo f = Except.error msg → LogEntry.failure f msg ∈ logs)
        ∧ (∀ f, f ∈ cli_raw_files ["a.dng", "b.CR2"] →
            runDemo f = Except.ok () → LogEntry.success f ∈ logs))) :=
  ⟨by decide, by decide,
   batch_unit_failure_isolated ["a.dng", "b.CR2"] runDemo (by decide) (by decide)⟩

/-- C8, amended: on empty discovery the orchestrator's batch entry point
raises the "No RAW files found." error, while the CLI's own batch loop only
prints a warning and returns normally — an error in one entry point, a
warned no-op in the other. -/
theorem empty_discovery_split_behaviour (entries : List String)
    (run : String → Except String Unit) :
    (orchestrator_raw_files entries = [] →
      process_path (InputPath.dir entries) true run
        = Except.error "No RAW files found.")
    ∧ (cli_raw_files entries = [] →
      cli_main (InputPath.dir entries) true true run
        = Except.ok [LogEntry.warning
            "No supported RAW files found in the input directory."]) := by
  constructor
  · intro h
    simp [process_path, h]
  · intro h
    simp [cli_main, h]

/-- C8 fails as stated: the CLI batch invocation on a directory with no
supported RAW file completes normally with a warning instead of raising. -/
theorem c8_counterexample :
    cli_raw_files ["notes.txt"] = []
    ∧ cli_main (InputPath.dir ["notes.txt"]) true true (fun _ => Except.ok ())
      = Except.ok [LogEntry.warning
          "No supported RAW files found in the input directory."] :=
  ⟨rfl, rfl⟩

/-- Witness for C8: the amended empty-discovery behaviour at a concrete
directory listing without RAW files. -/
theorem c8_witness :
    orchestrator_raw_files ["notes.md"] = []
    ∧ cli_raw_files ["notes.md"] = []
    ∧ process_path (InputPath.dir ["notes.md"]) true (fun _ => Except.ok ())
        = Except.error "No RAW files found."
    ∧ cli_main (InputPath.dir ["notes.md"]) true true (fun _ => Except.ok ())
        = Except.ok [LogEntry.warning
            "No supported RAW files found in the input directory."] :=
  ⟨rfl, rfl,
   (empty_discovery_split_behaviour ["notes.md"] (fun _ => Except.ok ())).1 rfl,
   (empty_discovery_split_behaviour ["notes.md"] (fun _ => Except.ok ())).2 rfl⟩
